import Mathlib

/-!
# Verification of the goCoax MoCA adapter client and coordinator

Shallow embedding of `custom_components/gocoax/pygocoax/client.py`,
`custom_components/gocoax/pygocoax/models.py` and
`custom_components/gocoax/coordinator.py`.

Python machine integers are modelled as `Int` (Python's `int` is unbounded).
Python `x >> n` on `Int` is floor division by `2 ^ n`; Python `x & m` for a
mask `m = 2 ^ k - 1` is `x mod 2 ^ k` (non-negative remainder), which covers
every bitwise operation the source performs (`& 0xFF`, `& 0xFFFFFFFF`,
`& 0x0F`).  Exceptions are modelled with `Except` over the library's error
taxonomy.  The HTML regex scraping (library `re` calls) is modelled as
uninterpreted scraper functions supplied as parameters; no claim concerns
the regex internals.
-/

namespace GoCoax

/-- The error taxonomy of `pygocoax/exceptions.py`: `GoCoaxAuthError`,
`GoCoaxConnectionError`, `GoCoaxTimeoutError`, `GoCoaxParseError` — four
sibling subclasses of `GoCoaxError` (none is a subclass of another). -/
inductive GErr where
  | auth
  | conn
  | timeout
  | parse
deriving DecidableEq, Repr

/-- A response from `_request`: either a parsed JSON dict (whose only key the
client ever reads is `"data"`, a list of hex strings), or raw HTML text. -/
inductive Resp where
  | dict (data : Option (List String))
  | text (s : String)
deriving DecidableEq, Repr

/-! ## HexCodec: `_parse_hex_value`, `_parse_64bit_value`, `_hex_to_mac`,
`_parse_moca_version` -/

/-- Value of one hexadecimal digit character, `none` if not a hex digit. -/
def hexDigitVal (c : Char) : Option Nat :=
  if '0' ≤ c ∧ c ≤ '9' then some (c.toNat - 48)
  else if 'a' ≤ c ∧ c ≤ 'f' then some (c.toNat - 87)
  else if 'A' ≤ c ∧ c ≤ 'F' then some (c.toNat - 55)
  else none

/-- Scan hex digits with Python's underscore rule (PEP 515): a single `_`
may appear only between digits (or directly after the `0x` prefix, which the
caller encodes by starting with `underscoreOk = true`).  `underscoreOk` says
an underscore may come next; `sawDigit` says at least one digit was read.
Returns the accumulated value iff the digit string is well-formed. -/
def scanHexDigits : List Char → Nat → Bool → Bool → Option Nat
  | [], acc, underscoreOk, sawDigit =>
      if underscoreOk ∧ sawDigit then some acc else none
  | c :: rest, acc, underscoreOk, sawDigit =>
      match hexDigitVal c with
      | some d => scanHexDigits rest (acc * 16 + d) true true
      | none =>
          if c = '_' ∧ underscoreOk then scanHexDigits rest acc false sawDigit
          else none

/-- Digits of a hex literal after the optional sign: an optional `0x`/`0X`
prefix then hex digits (underscore allowed right after the prefix). -/
def parseHexBody : List Char → Option Nat
  | '0' :: c :: rest =>
      if c = 'x' ∨ c = 'X' then scanHexDigits rest 0 true false
      else scanHexDigits ('0' :: c :: rest) 0 false false
  | cs => scanHexDigits cs 0 false false

/-- Python whitespace characters stripped by `int(s, 16)`. -/
def isPySpace (c : Char) : Bool :=
  c = ' ' ∨ c = '\t' ∨ c = '\n' ∨ c = '\r' ∨ c = '\x0b' ∨ c = '\x0c'

/-- Python `int(s, 16)`: strip surrounding whitespace, optional sign,
optional `0x` prefix, hex digits with PEP 515 underscores; `none` models the
`ValueError` raised on malformed input. -/
def pyIntHex (s : String) : Option Int :=
  let cs := ((s.toList.dropWhile isPySpace).reverse.dropWhile isPySpace).reverse
  match cs with
  | '-' :: rest => (parseHexBody rest).map (fun n => -(n : Int))
  | '+' :: rest => (parseHexBody rest).map (fun n => (n : Int))
  | rest => (parseHexBody rest).map (fun n => (n : Int))

/-- Method `_parse_hex_value`: `int(hex_str, 16)` with `0` on `ValueError` /
`TypeError`. -/
def parse_hex_value (hex_str : String) : Int :=
  (pyIntHex hex_str).getD 0

/-- Python `x >> n` on unbounded integers: floor division by `2 ^ n`. -/
def pyShr (x : Int) (n : Nat) : Int :=
  Int.fdiv x (2 ^ n)

/-- Python `x & (2 ^ k - 1)` on unbounded integers: the non-negative
remainder `x mod 2 ^ k`.  `m` is the mask, required to be `2 ^ k - 1` at
every use site in the source (`0xFF`, `0xFFFFFFFF`, `0x0F`). -/
def pyAndMask (x : Int) (m : Nat) : Int :=
  Int.emod x ((m : Int) + 1)

/-- Method `_parse_64bit_value`: combine `data[high_idx]` (upper 32 bits, masked)
and `data[high_idx + 1]` (lower) as `high * 2^32 + low`; `0` when
`high_idx + 1` is out of bounds. -/
def parse_64bit_value (data : List String) (high_idx : Nat) : Int :=
  if high_idx + 1 ≥ data.length then 0
  else
    let high := pyAndMask (parse_hex_value (data.getD high_idx "")) 0xFFFFFFFF
    let low := parse_hex_value (data.getD (high_idx + 1) "")
    high * 4294967296 + low

/-- One byte as two lowercase hex characters (Python `f"{b:02x}"` for
`0 ≤ b < 256`). -/
def hexByte (b : Int) : String :=
  let n := b.toNat
  let digit := fun (k : Nat) =>
    if k < 10 then Char.ofNat (48 + k) else Char.ofNat (87 + k)
  String.mk [digit (n / 16 % 16), digit (n % 16)]

/-- Method `_hex_to_mac`: `hi` supplies the first four octets, the top 16 bits of
`lo` supply the last two; colon-separated lowercase hex. -/
def hex_to_mac (hi lo : Int) : String :=
  let b1 := pyAndMask (pyShr hi 24) 0xFF
  let b2 := pyAndMask (pyShr hi 16) 0xFF
  let b3 := pyAndMask (pyShr hi 8) 0xFF
  let b4 := pyAndMask hi 0xFF
  let b5 := pyAndMask (pyShr lo 24) 0xFF
  let b6 := pyAndMask (pyShr lo 16) 0xFF
  hexByte b1 ++ ":" ++ hexByte b2 ++ ":" ++ hexByte b3 ++ ":" ++
    hexByte b4 ++ ":" ++ hexByte b5 ++ ":" ++ hexByte b6

/-- Method `_parse_moca_version`: `0x20 → "2.0"`, `0x25 → "2.5"`, else
`f"{v >> 4}.{v & 0x0F}"` when `v ≥ 0x20`, else `"unknown"`. -/
def parse_moca_version (ver_int : Int) : String :=
  if ver_int = 0x20 then "2.0"
  else if ver_int = 0x25 then "2.5"
  else if ver_int ≥ 0x20 then
    toString (pyShr ver_int 4) ++ "." ++ toString (pyAndMask ver_int 0x0F)
  else "unknown"

/-! ## Data model (`pygocoax/models.py`) -/

/-- Dataclass `PacketStats`: tx/rx counters (`ok`, `bad`, `dropped`). -/
structure PacketStats where
  ok : Int := 0
  bad : Int := 0
  dropped : Int := 0
deriving DecidableEq, Repr

/-- Dataclass `EthernetPackets`: a `PacketStats` pair for each direction. -/
structure EthernetPackets where
  tx : PacketStats := {}
  rx : PacketStats := {}
deriving DecidableEq, Repr

/-- Dataclass `NetworkPeer`: one other node on the MoCA network. -/
structure NetworkPeer where
  node_id : Int
  mac_address : String
  moca_version : String
  tx_phy_rate : Int := 0
  rx_phy_rate : Int := 0
deriving DecidableEq, Repr

/-- Dataclass `PhyRate`: link rate between two adapters. -/
structure PhyRate where
  source_mac : String
  target_mac : String
  tx_rate : Int
  rx_rate : Int
deriving DecidableEq, Repr

/-- Dataclass `SignalQuality`: best-effort metrics, all optional.  The source fields
are Python `float | None`; the client never computes with them (they are
only copied), so the carrier is modelled as `Rat`. -/
structure SignalQuality where
  snr : Option Rat := none
  tx_power : Option Rat := none
  rx_power : Option Rat := none
  bit_loading : Option Int := none
deriving DecidableEq, Repr

/-- Dataclass `AdapterStatus`: the aggregate snapshot built once per poll. -/
structure AdapterStatus where
  mac_address : String
  ip_address : String
  moca_version : String
  link_status : Bool
  adapter_name : Option String := none
  firmware_version : Option String := none
  model : Option String := none
  packets : EthernetPackets := {}
  network_peers : List NetworkPeer := []
  phy_rates : List PhyRate := []
  node_id : Int := 0
  network_controller : Bool := false
  frequency_band : Option String := none
  lof : Option Int := none
  encryption_enabled : Option Bool := none
  signal_quality : SignalQuality := {}
  channel_count : Option Int := none
  nc_node_id : Option Int := none
deriving DecidableEq, Repr

/-- Property `AdapterStatus.peer_count`: derived count of network peers. -/
def AdapterStatus.peer_count (s : AdapterStatus) : Nat :=
  s.network_peers.length

/-! ## Per-endpoint fetch functions (`pygocoax/client.py`)

Each fetch function takes the transport outcome of its `_request` call —
`.error e` when `_request` raised (`e` is `auth`, `conn` or `timeout`;
`_request` itself never raises `parse`) or `.ok r` with the decoded
response — and returns `Except GErr` of its result, mirroring the
function's own `try/except` structure. -/

/-- The `get_local_info` result: the dict of fixed-offset fields. -/
structure LocalInfo where
  link_status : Int
  moca_version : Int
  node_id : Int
  nc_node_id : Int
  raw_data : List String
deriving DecidableEq, Repr

/-- Method `get_mac_address`: decode the MAC from the first two data words; only
`GoCoaxParseError` is caught (yielding `""`); falls through to `""` when the
response shape is unexpected. -/
def get_mac_address (r : Except GErr Resp) : Except GErr String :=
  match r with
  | .error e => .error e
  | .ok (.dict (some data)) =>
      if data.length ≥ 2 then
        .ok (hex_to_mac (parse_hex_value (data.getD 0 ""))
          (parse_hex_value (data.getD 1 "")))
      else .ok ""
  | .ok _ => .ok ""

/-- Method `get_local_info`: fixed offsets 5 / 11 / 3 / 4, each defaulting to `0`
when the array is too short; raises `GoCoaxParseError` on a non-dict or
`data`-less response. -/
def get_local_info (r : Except GErr Resp) : Except GErr LocalInfo :=
  match r with
  | .error e => .error e
  | .ok (.dict (some data)) =>
      .ok { link_status :=
              if data.length > 5 then parse_hex_value (data.getD 5 "") else 0,
            moca_version :=
              if data.length > 11 then parse_hex_value (data.getD 11 "") else 0,
            node_id :=
              if data.length > 3 then parse_hex_value (data.getD 3 "") else 0,
            nc_node_id :=
              if data.length > 4 then parse_hex_value (data.getD 4 "") else 0,
            raw_data := data }
  | .ok _ => .error .parse

/-- Method `get_frame_info`: six 64-bit counters at offsets 12/30/48 (TX) and
66/84/102 (RX); raises `GoCoaxParseError` on an unexpected shape. -/
def get_frame_info (r : Except GErr Resp) : Except GErr EthernetPackets :=
  match r with
  | .error e => .error e
  | .ok (.dict (some data)) =>
      .ok { tx := { ok := parse_64bit_value data 12,
                    bad := parse_64bit_value data 30,
                    dropped := parse_64bit_value data 48 },
            rx := { ok := parse_64bit_value data 66,
                    bad := parse_64bit_value data 84,
                    dropped := parse_64bit_value data 102 } }
  | .ok _ => .error .parse

/-- The loop body of `get_node_info`: split `data` into records of 16
values; per record decode node id (offset 0), MAC (offsets 1–2), MoCA
version (offset 3); `continue` past the local node, node id `0`, and
all-zero MACs. -/
def decodePeers (data : List String) (local_node_id : Int) :
    List NetworkPeer :=
  if data.length ≥ 16 then
    (List.range (data.length / 16)).filterMap (fun i =>
      let offset := i * 16
      let node_id := parse_hex_value (data.getD offset "")
      if node_id = local_node_id ∨ node_id = 0 then none
      else
        let mac_addr := hex_to_mac (parse_hex_value (data.getD (offset + 1) ""))
          (parse_hex_value (data.getD (offset + 2) ""))
        if mac_addr = "00:00:00:00:00:00" then none
        else
          some { node_id := node_id,
                 mac_address := mac_addr,
                 moca_version :=
                   parse_moca_version
                     (parse_hex_value (data.getD (offset + 3) "")) })
  else []

/-- Method `get_node_info`: catches `GoCoaxConnectionError` and `GoCoaxParseError`
(returning the peers gathered so far, i.e. `[]`); other errors propagate. -/
def get_node_info (local_node_id : Int) (r : Except GErr Resp) :
    Except GErr (List NetworkPeer) :=
  match r with
  | .error .conn => .ok []
  | .error .parse => .ok []
  | .error e => .error e
  | .ok (.dict (some data)) => .ok (decodePeers data local_node_id)
  | .ok _ => .ok []

/-- The regex-library calls of the HTML scraping, modelled as uninterpreted
functions: `phyParse` stands for `_parse_phy_rates_html`, the three search
functions for the `re.search` calls of `get_status_page` (returning the
captured group, already converted where the source converts). -/
structure Scrapers where
  phyParse : String → List PhyRate
  fwSearch : String → Option String
  modelSearch : String → Option String
  channelSearch : String → Option Int

/-- Method `get_phy_rates`: parse the HTML page; catches `GoCoaxConnectionError`
and `GoCoaxParseError`, returning `[]`. -/
def get_phy_rates (scr : Scrapers) (r : Except GErr Resp) :
    Except GErr (List PhyRate) :=
  match r with
  | .error .conn => .ok []
  | .error .parse => .ok []
  | .error e => .error e
  | .ok (.text html) => .ok (scr.phyParse html)
  | .ok _ => .ok []

/-- The `get_privacy_info` result dict. -/
structure PrivacyInfo where
  encryption_enabled : Option Bool := none
deriving DecidableEq, Repr

/-- Method `get_privacy_info`: offset 0 equal to `1` means encryption enabled;
defaults to `None`; catches `GoCoaxConnectionError` / `GoCoaxParseError`. -/
def get_privacy_info (r : Except GErr Resp) : Except GErr PrivacyInfo :=
  match r with
  | .error .conn => .ok {}
  | .error .parse => .ok {}
  | .error e => .error e
  | .ok (.dict (some data)) =>
      if data.length ≥ 1 then
        .ok { encryption_enabled := some (parse_hex_value (data.getD 0 "") = 1) }
      else .ok {}
  | .ok _ => .ok {}

/-- The `get_fmr_info` result dict: the decoder is a stub, all fields stay
`None`. -/
structure FmrInfo where
  snr : Option Rat := none
  tx_power : Option Rat := none
  rx_power : Option Rat := none
  bit_loading : Option Int := none
deriving DecidableEq, Repr

/-- Method `get_fmr_info`: only logs the raw payload; every field stays `None`;
catches `GoCoaxConnectionError` / `GoCoaxParseError`. -/
def get_fmr_info (r : Except GErr Resp) : Except GErr FmrInfo :=
  match r with
  | .error .conn => .ok {}
  | .error .parse => .ok {}
  | .error e => .error e
  | .ok _ => .ok {}

/-- Method `_lof_to_band`: threshold mapping from LOF (MHz) to band name. -/
def lof_to_band (lof : Int) : String :=
  if lof ≥ 1400 then "D-High"
  else if lof ≥ 1225 then "D-Mid"
  else if lof ≥ 1125 then "Extended-D"
  else if lof ≥ 1000 then "D-Low"
  else "Unknown (" ++ toString lof ++ " MHz)"

/-- The `get_config_info` result dict. -/
structure ConfigInfo where
  frequency_band : Option String := none
  lof : Option Int := none
  channel_count : Option Int := none
deriving DecidableEq, Repr

/-- Method `get_config_info`: offset 0 is the LOF, accepted only inside
`[1000, 1700]`; the band is derived from it; `channel_count` is never
assigned; catches `GoCoaxConnectionError` / `GoCoaxParseError`. -/
def get_config_info (r : Except GErr Resp) : Except GErr ConfigInfo :=
  match r with
  | .error .conn => .ok {}
  | .error .parse => .ok {}
  | .error e => .error e
  | .ok (.dict (some data)) =>
      if data.length ≥ 1 then
        let lof := parse_hex_value (data.getD 0 "")
        if 1000 ≤ lof ∧ lof ≤ 1700 then
          .ok { lof := some lof, frequency_band := some (lof_to_band lof) }
        else .ok {}
      else .ok {}
  | .ok _ => .ok {}

/-- The `get_status_page` result dict (keys present only when a pattern
matched; `.get` on a missing key gives `None`, hence `Option` fields). -/
structure StatusPage where
  firmware_version : Option String := none
  model : Option String := none
  channel_count : Option Int := none
deriving DecidableEq, Repr

/-- Method `get_status_page`: regex-scrape firmware version, model (uppercased)
and channel count from the status HTML; catches `GoCoaxConnectionError` /
`GoCoaxParseError`. -/
def get_status_page (scr : Scrapers) (r : Except GErr Resp) :
    Except GErr StatusPage :=
  match r with
  | .error .conn => .ok {}
  | .error .parse => .ok {}
  | .error e => .error e
  | .ok (.text html) =>
      .ok { firmware_version := scr.fwSearch html,
            model := (scr.modelSearch html).map String.toUpper,
            channel_count := scr.channelSearch html }
  | .ok _ => .ok {}

/-- Python `a or b` on two optional ints (`dict.get` results): the second
operand whenever the first is falsy, i.e. `None` or `0`. -/
def pyOrOptInt (a b : Option Int) : Option Int :=
  match a with
  | some n => if n ≠ 0 then some n else b
  | none => b

/-- The transport outcome of each endpoint `_request` performed during one
`get_status` run. -/
structure DeviceResponses where
  mac : Except GErr Resp
  localInfo : Except GErr Resp
  frameInfo : Except GErr Resp
  nodeInfo : Except GErr Resp
  phyRates : Except GErr Resp
  privacy : Except GErr Resp
  config : Except GErr Resp
  fmr : Except GErr Resp
  statusPage : Except GErr Resp

/-- The tail of `get_status` once every sub-fetch has succeeded: derive
`link_status` (`== 1`), the MoCA version string, the NC flag
(`node_id == nc_node_id`), fill the PHY-rate source MACs, build the
signal-quality record, combine `channel_count` with Python `or`, and
construct the `AdapterStatus`. -/
def assembleStatus (host mac_address : String) (local_info : LocalInfo)
    (packets : EthernetPackets) (peers : List NetworkPeer)
    (phy_rates : List PhyRate) (privacy_info : PrivacyInfo)
    (config_info : ConfigInfo) (fmr_info : FmrInfo)
    (status_page : StatusPage) : AdapterStatus :=
  { mac_address := mac_address,
    ip_address := host,
    moca_version := parse_moca_version local_info.moca_version,
    link_status := local_info.link_status == 1,
    packets := packets,
    network_peers := peers,
    phy_rates :=
      phy_rates.map (fun rate => { rate with source_mac := mac_address }),
    node_id := local_info.node_id,
    nc_node_id := some local_info.nc_node_id,
    network_controller := local_info.node_id == local_info.nc_node_id,
    firmware_version := status_page.firmware_version,
    model := status_page.model,
    frequency_band := config_info.frequency_band,
    lof := config_info.lof,
    encryption_enabled := privacy_info.encryption_enabled,
    signal_quality :=
      { snr := fmr_info.snr, tx_power := fmr_info.tx_power,
        rx_power := fmr_info.rx_power, bit_loading := fmr_info.bit_loading },
    channel_count :=
      pyOrOptInt config_info.channel_count status_page.channel_count }

/-- Method `get_status`: the sequential assembly of one `AdapterStatus` from the
nine sub-fetches, propagating exceptions exactly as the awaited calls do.
`host` is `self._host`. -/
def get_status (scr : Scrapers) (host : String) (d : DeviceResponses) :
    Except GErr AdapterStatus :=
  match get_mac_address d.mac with
  | .error e => .error e
  | .ok mac_address =>
  match get_local_info d.localInfo with
  | .error e => .error e
  | .ok local_info =>
  match get_frame_info d.frameInfo with
  | .error e => .error e
  | .ok packets =>
  match get_node_info local_info.node_id d.nodeInfo with
  | .error e => .error e
  | .ok peers =>
  match get_phy_rates scr d.phyRates with
  | .error e => .error e
  | .ok phy_rates =>
  match get_privacy_info d.privacy with
  | .error e => .error e
  | .ok privacy_info =>
  match get_config_info d.config with
  | .error e => .error e
  | .ok config_info =>
  match get_fmr_info d.fmr with
  | .error e => .error e
  | .ok fmr_info =>
  match get_status_page scr d.statusPage with
  | .error e => .error e
  | .ok status_page =>
  .ok (assembleStatus host mac_address local_info packets peers phy_rates
    privacy_info config_info fmr_info status_page)

/-- Method `test_connection`: true iff the MAC lookup returns a non-empty string;
`GoCoaxAuthError` and `GoCoaxConnectionError` are re-raised; any other
exception (within the taxonomy: timeout, parse) yields `False`. -/
def test_connection (r : Except GErr Resp) : Except GErr Bool :=
  match get_mac_address r with
  | .ok mac => .ok (decide (mac ≠ ""))
  | .error .auth => .error .auth
  | .error .conn => .error .conn
  | .error .timeout => .ok false
  | .error .parse => .ok false

/-! ## `AdapterStatus.to_dict` (`models.py`) -/

/-- A Python value as it appears in the `to_dict` serialization. -/
inductive PyValue where
  | str (s : String)
  | int (n : Int)
  | bool (b : Bool)
  | float (q : Rat)
  | pyNone
  | list (xs : List PyValue)
  | dict (xs : List (String × PyValue))

/-- Python `None`-or-string as a `PyValue`. -/
def pyOfOptStr : Option String → PyValue
  | some s => .str s
  | none => .pyNone

/-- Python `None`-or-int as a `PyValue`. -/
def pyOfOptInt : Option Int → PyValue
  | some n => .int n
  | none => .pyNone

/-- Python `None`-or-bool as a `PyValue`. -/
def pyOfOptBool : Option Bool → PyValue
  | some b => .bool b
  | none => .pyNone

/-- Python `None`-or-float as a `PyValue`. -/
def pyOfOptFloat : Option Rat → PyValue
  | some q => .float q
  | none => .pyNone

/-- Method `AdapterStatus.to_dict`: the dictionary literal of `models.py`, in
source order. -/
def AdapterStatus.to_dict (s : AdapterStatus) : List (String × PyValue) :=
  [("mac_address", .str s.mac_address),
   ("ip_address", .str s.ip_address),
   ("moca_version", .str s.moca_version),
   ("link_status", .str (if s.link_status then "up" else "down")),
   ("adapter_name", pyOfOptStr s.adapter_name),
   ("firmware_version", pyOfOptStr s.firmware_version),
   ("model", pyOfOptStr s.model),
   ("node_id", .int s.node_id),
   ("nc_node_id", pyOfOptInt s.nc_node_id),
   ("network_controller", .bool s.network_controller),
   ("frequency_band", pyOfOptStr s.frequency_band),
   ("lof", pyOfOptInt s.lof),
   ("channel_count", pyOfOptInt s.channel_count),
   ("encryption_enabled", pyOfOptBool s.encryption_enabled),
   ("signal_quality",
     .dict [("snr", pyOfOptFloat s.signal_quality.snr),
            ("tx_power", pyOfOptFloat s.signal_quality.tx_power),
            ("rx_power", pyOfOptFloat s.signal_quality.rx_power),
            ("bit_loading", pyOfOptInt s.signal_quality.bit_loading)]),
   ("packets",
     .dict [("tx", .dict [("ok", .int s.packets.tx.ok),
                          ("bad", .int s.packets.tx.bad),
                          ("dropped", .int s.packets.tx.dropped)]),
            ("rx", .dict [("ok", .int s.packets.rx.ok),
                          ("bad", .int s.packets.rx.bad),
                          ("dropped", .int s.packets.rx.dropped)])]),
   ("network_peers",
     .list (s.network_peers.map (fun peer =>
       .dict [("node_id", .int peer.node_id),
              ("mac_address", .str peer.mac_address),
              ("moca_version", .str peer.moca_version),
              ("tx_phy_rate", .int peer.tx_phy_rate),
              ("rx_phy_rate", .int peer.rx_phy_rate)]))),
   ("phy_rates",
     .list (s.phy_rates.map (fun rate =>
       .dict [("source_mac", .str rate.source_mac),
              ("target_mac", .str rate.target_mac),
              ("tx_rate", .int rate.tx_rate),
              ("rx_rate", .int rate.rx_rate)])))]

/-! ## PollingCoordinator (`coordinator.py`, `_async_update_data`) -/

/-- Value of `self._max_consecutive_errors`. -/
def maxConsecutiveErrors : Nat := 5

/-- The outcome of one `get_status` call as the coordinator sees it:
success, or one of the raised error kinds (`other` is any exception caught
by the final bare `except Exception`). -/
inductive FetchErr where
  | auth
  | timeout
  | conn
  | other
deriving DecidableEq, Repr

/-- Coordinator state owned across ticks: the consecutive-error counter and
the cached snapshot (`self.data`, maintained by the host framework from the
values `_async_update_data` returns). -/
structure CoordState where
  consecutive_errors : Nat := 0
  data : Option AdapterStatus := none
deriving DecidableEq, Repr

/-- What one tick of `_async_update_data` produces for the host framework:
a snapshot, or one of the two raised signals (`ConfigEntryAuthFailed`,
`UpdateFailed`). -/
inductive CoordOutcome where
  | data (s : AdapterStatus)
  | authFailed
  | updateFailed
deriving DecidableEq, Repr

/-- One tick of `_async_update_data`: the returned snapshot replaces the
cached `self.data`; a raise leaves the cache unchanged. -/
def coordinatorTick (st : CoordState) (r : Except FetchErr AdapterStatus) :
    CoordState × CoordOutcome :=
  match r with
  | .ok status =>
      ({ consecutive_errors := 0, data := some status }, .data status)
  | .error .auth =>
      ({ st with consecutive_errors := st.consecutive_errors + 1 },
       .authFailed)
  | .error .timeout =>
      let n := st.consecutive_errors + 1
      if n ≥ maxConsecutiveErrors then
        ({ st with consecutive_errors := n }, .updateFailed)
      else
        match st.data with
        | some d => ({ st with consecutive_errors := n }, .data d)
        | none => ({ st with consecutive_errors := n }, .updateFailed)
  | .error .conn =>
      let n := st.consecutive_errors + 1
      if n ≥ maxConsecutiveErrors then
        ({ st with consecutive_errors := n }, .updateFailed)
      else
        match st.data with
        | some d => ({ st with consecutive_errors := n }, .data d)
        | none => ({ st with consecutive_errors := n }, .updateFailed)
  | .error .other =>
      ({ st with consecutive_errors := st.consecutive_errors + 1 },
       .updateFailed)

/-! ## Fixtures shared by witnesses and counterexamples -/

/-- Scrapers whose regex searches find nothing (empty-page behaviour). -/
def noopScrapers : Scrapers :=
  { phyParse := fun _ => [],
    fwSearch := fun _ => none,
    modelSearch := fun _ => none,
    channelSearch := fun _ => none }

/-- A concrete healthy snapshot. -/
def sampleStatus : AdapterStatus :=
  { mac_address := "a4:81:7a:49:e3:dd",
    ip_address := "192.168.1.1",
    moca_version := "2.5",
    link_status := true }

/-- Local-info data array: node id 1, NC node id 1, link value at offset 5,
MoCA version `0x25` at offset 11. -/
def localData (link : String) : List String :=
  ["0", "0", "0", "1", "1", link, "0", "0", "0", "0", "0", "25"]

/-- A complete set of successful device responses (link value `"2"`). -/
def sampleResponses : DeviceResponses :=
  { mac := .ok (.dict (some ["a4817a49", "e3dd0000"])),
    localInfo := .ok (.dict (some (localData "2"))),
    frameInfo := .ok (.dict (some [])),
    nodeInfo := .ok (.dict (some [])),
    phyRates := .ok (.text ""),
    privacy := .ok (.dict (some ["1"])),
    config := .ok (.dict (some ["4b0"])),
    fmr := .ok (.dict (some [])),
    statusPage := .ok (.text "") }

/-! ## Helper lemmas -/

/-- Inversion of a successful `get_config_info`: the result is either the
default dict or the in-range LOF dict. -/
theorem get_config_info_shape (r : Except GErr Resp) (ci : ConfigInfo)
    (h : get_config_info r = .ok ci) :
    ci = {} ∨ ∃ lof : Int, 1000 ≤ lof ∧ lof ≤ 1700 ∧
      ci = { frequency_band := some (lof_to_band lof), lof := some lof } := by
  cases r with
  | error e =>
      cases e with
      | auth => exact Except.noConfusion h
      | timeout => exact Except.noConfusion h
      | conn => injection h with h; exact Or.inl h.symm
      | parse => injection h with h; exact Or.inl h.symm
  | ok resp =>
      cases resp with
      | text s => injection h with h; exact Or.inl h.symm
      | dict data? =>
          cases data? with
          | none => injection h with h; exact Or.inl h.symm
          | some data =>
              simp only [get_config_info] at h
              split at h
              · split at h
                · rename_i hlof
                  injection h with h
                  exact Or.inr ⟨parse_hex_value (data.getD 0 ""), hlof.1,
                    hlof.2, h.symm⟩
                · injection h with h; exact Or.inl h.symm
              · injection h with h; exact Or.inl h.symm

/-- Inversion of a successful `get_status`: every sub-fetch succeeded and
the snapshot is their assembly. -/
theorem get_status_ok_iff (scr : Scrapers) (host : String)
    (d : DeviceResponses) (s : AdapterStatus) :
    get_status scr host d = .ok s ↔
    ∃ mac_address local_info packets peers phy_rates privacy_info
      config_info fmr_info status_page,
      get_mac_address d.mac = .ok mac_address ∧
      get_local_info d.localInfo = .ok local_info ∧
      get_frame_info d.frameInfo = .ok packets ∧
      get_node_info local_info.node_id d.nodeInfo = .ok peers ∧
      get_phy_rates scr d.phyRates = .ok phy_rates ∧
      get_privacy_info d.privacy = .ok privacy_info ∧
      get_config_info d.config = .ok config_info ∧
      get_fmr_info d.fmr = .ok fmr_info ∧
      get_status_page scr d.statusPage = .ok status_page ∧
      s = assembleStatus host mac_address local_info packets peers phy_rates
        privacy_info config_info fmr_info status_page := by
  constructor
  · intro h
    unfold get_status at h
    split at h
    · exact Except.noConfusion h
    rename_i mac_address h1
    split at h
    · exact Except.noConfusion h
    rename_i local_info h2
    split at h
    · exact Except.noConfusion h
    rename_i packets h3
    split at h
    · exact Except.noConfusion h
    rename_i peers h4
    split at h
    · exact Except.noConfusion h
    rename_i phy_rates h5
    split at h
    · exact Except.noConfusion h
    rename_i privacy_info h6
    split at h
    · exact Except.noConfusion h
    rename_i config_info h7
    split at h
    · exact Except.noConfusion h
    rename_i fmr_info h8
    split at h
    · exact Except.noConfusion h
    rename_i status_page h9
    injection h with h
    exact ⟨_, _, _, _, _, _, _, _, _, h1, h2, h3, h4, h5, h6, h7, h8, h9,
      h.symm⟩
  · rintro ⟨mac_address, local_info, packets, peers, phy_rates, privacy_info,
      config_info, fmr_info, status_page, h1, h2, h3, h4, h5, h6, h7, h8, h9,
      rfl⟩
    unfold get_status
    simp only [h1, h2, h3, h4, h5, h6, h7, h8, h9]

/-! ## Claim theorems -/

/-- C6: for every integer `v`, the MoCA version decoder returns `"2.0"` for
`v = 0x20`, `"2.5"` for `v = 0x25`, the string `{v>>4}.{v&0xF}` for every
other `v ≥ 0x20`, and `"unknown"` for every `v < 0x20` (including 0). -/
theorem moca_version_decoder_cases (v : Int) :
    parse_moca_version 0x20 = "2.0" ∧
    parse_moca_version 0x25 = "2.5" ∧
    (v ≥ 0x20 → v ≠ 0x20 → v ≠ 0x25 →
      parse_moca_version v =
        toString (pyShr v 4) ++ "." ++ toString (pyAndMask v 0x0F)) ∧
    (v < 0x20 → parse_moca_version v = "unknown") := by
  refine ⟨by decide, by decide, fun hge h20 h25 => ?_, fun hlt => ?_⟩
  · simp [parse_moca_version, h20, h25, hge]
  · have h20 : v ≠ 0x20 := by omega
    have h25 : v ≠ 0x25 := by omega
    have hge : ¬(v ≥ 0x20) := by omega
    simp [parse_moca_version, h20, h25, hge]

/-- Witness for C6 at `v = 0x31` (general-format branch) and `v = 0`
(unknown branch). -/
theorem moca_version_decoder_cases_witness :
    parse_moca_version 0x31 = "3.1" ∧ parse_moca_version 0 = "unknown" := by
  constructor
  · have h := (moca_version_decoder_cases 0x31).2.2.1 (by decide) (by decide)
      (by decide)
    rw [h]; decide
  · exact (moca_version_decoder_cases 0).2.2.2 (by decide)

/-- C9: `test_connection` returns `False` (rather than raising) when the
MAC lookup fails with a timeout error or any other exception that is not an
auth or connection error; only auth and connection errors are re-raised. -/
theorem test_connection_error_policy (e : GErr) :
    (test_connection (.error .timeout) = .ok false) ∧
    (e ≠ .auth → e ≠ .conn → test_connection (.error e) = .ok false) ∧
    (e = .auth ∨ e = .conn → test_connection (.error e) = .error e) := by
  refine ⟨rfl, fun ha hc => ?_, fun h => ?_⟩
  · cases e with
    | auth => exact absurd rfl ha
    | conn => exact absurd rfl hc
    | timeout => rfl
    | parse => rfl
  · rcases h with rfl | rfl <;> rfl

/-- Witness for C9: timeout is swallowed into `False`, auth is re-raised. -/
theorem test_connection_error_policy_witness :
    test_connection (.error .timeout) = .ok false ∧
    test_connection (.error .auth) = .error .auth ∧
    test_connection (.error .parse) = .ok false := by
  refine ⟨(test_connection_error_policy .timeout).1,
    (test_connection_error_policy .auth).2.2 (Or.inl rfl),
    (test_connection_error_policy .parse).2.1 (by decide) (by decide)⟩

/-- C5 counterexample: at a state with a cached snapshot and error counter
0 (far below the threshold), an unexpected (`other`) failure yields
`updateFailed`, while a connection error at the very same state returns the
cached snapshot — the code does NOT apply the connection-error escalation
policy to unexpected failures. -/
theorem unexpected_error_policy_cex :
    (coordinatorTick { consecutive_errors := 0, data := some sampleStatus }
      (.error .other)).2 = .updateFailed ∧
    (coordinatorTick { consecutive_errors := 0, data := some sampleStatus }
      (.error .conn)).2 = .data sampleStatus ∧
    CoordOutcome.updateFailed ≠ .data sampleStatus := by
  exact ⟨rfl, rfl, fun h => CoordOutcome.noConfusion h⟩

/-- C5 amended: an unexpected (non-auth, non-timeout, non-connection) error
increments the consecutive-error counter but always raises update-failed
immediately, regardless of the counter and of any cached snapshot (which is
left unchanged). -/
theorem unexpected_error_policy (st : CoordState) :
    (coordinatorTick st (.error .other)).1.consecutive_errors =
      st.consecutive_errors + 1 ∧
    (coordinatorTick st (.error .other)).2 = .updateFailed ∧
    (coordinatorTick st (.error .other)).1.data = st.data :=
  ⟨rfl, rfl, rfl⟩

/-- C3: on a timeout or connection error the coordinator increments its
consecutive-error counter; reaching the threshold (5) raises update-failed;
below it, a cached snapshot is returned unchanged and kept, and with no
cache it raises update-failed immediately; a success resets the counter to
0 and replaces the cache. -/
theorem coordinator_retry_policy (st : CoordState) (e : FetchErr)
    (status d : AdapterStatus) :
    ((e = .timeout ∨ e = .conn) →
      (coordinatorTick st (.error e)).1.consecutive_errors =
        st.consecutive_errors + 1 ∧
      (st.consecutive_errors + 1 ≥ maxConsecutiveErrors →
        (coordinatorTick st (.error e)).2 = .updateFailed) ∧
      (st.consecutive_errors + 1 < maxConsecutiveErrors → st.data = some d →
        (coordinatorTick st (.error e)).2 = .data d ∧
        (coordinatorTick st (.error e)).1.data = some d) ∧
      (st.consecutive_errors + 1 < maxConsecutiveErrors → st.data = none →
        (coordinatorTick st (.error e)).2 = .updateFailed)) ∧
    coordinatorTick st (.ok status) =
      ({ consecutive_errors := 0, data := some status }, .data status) := by
  obtain ⟨n, dat⟩ := st
  constructor
  · rintro (rfl | rfl) <;>
    · refine ⟨?_, fun h5 => ?_, fun h5 hd => ?_, fun h5 hd => ?_⟩
      · by_cases h : n + 1 ≥ maxConsecutiveErrors
        · simp [coordinatorTick, h]
        · cases dat <;> simp [coordinatorTick, h]
      · simp [coordinatorTick, h5]
      · simp only at hd
        subst hd
        simp [coordinatorTick, Nat.not_le.2 h5]
      · simp only at hd
        subst hd
        simp [coordinatorTick, Nat.not_le.2 h5]
  · rfl

/-- Witness for C3: with a cached snapshot, the first timeout (counter
0 → 1) returns the cache; the fifth consecutive timeout (counter 4 → 5)
raises update-failed; with no cache the first timeout raises; a success
resets the state. -/
theorem coordinator_retry_policy_witness :
    (coordinatorTick { consecutive_errors := 0, data := some sampleStatus }
      (.error .timeout)).2 = .data sampleStatus ∧
    (coordinatorTick { consecutive_errors := 4, data := some sampleStatus }
      (.error .timeout)).2 = .updateFailed ∧
    (coordinatorTick { consecutive_errors := 0, data := none }
      (.error .conn)).2 = .updateFailed ∧
    coordinatorTick { consecutive_errors := 3, data := none }
      (.ok sampleStatus) =
      ({ consecutive_errors := 0, data := some sampleStatus },
        .data sampleStatus) := by
  refine ⟨?_, ?_, ?_, ?_⟩
  · exact (((coordinator_retry_policy
      { consecutive_errors := 0, data := some sampleStatus } .timeout
      sampleStatus sampleStatus).1 (Or.inl rfl)).2.2.1 (by decide) rfl).1
  · exact ((coordinator_retry_policy
      { consecutive_errors := 4, data := some sampleStatus } .timeout
      sampleStatus sampleStatus).1 (Or.inl rfl)).2.1 (by decide)
  · exact ((coordinator_retry_policy
      { consecutive_errors := 0, data := none } .conn
      sampleStatus sampleStatus).1 (Or.inr rfl)).2.2.2 (by decide) rfl
  · exact (coordinator_retry_policy
      { consecutive_errors := 3, data := none } .conn
      sampleStatus sampleStatus).2

/-- C8: the `frequency_band` produced by `get_config_info` is either `None`
or exactly one of `"D-Low"`, `"Extended-D"`, `"D-Mid"`, `"D-High"`; the
band function's `Unknown` branch is unreachable from `get_config_info`
since the band is only computed for a LOF in `[1000, 1700]`. -/
theorem frequency_band_closed (r : Except GErr Resp) (ci : ConfigInfo)
    (h : get_config_info r = .ok ci) :
    ci.frequency_band = none ∨ ci.frequency_band = some "D-Low" ∨
    ci.frequency_band = some "Extended-D" ∨
    ci.frequency_band = some "D-Mid" ∨
    ci.frequency_band = some "D-High" := by
  rcases get_config_info_shape r ci h with rfl | ⟨lof, h1, h2, rfl⟩
  · exact Or.inl rfl
  · right
    dsimp only
    unfold lof_to_band
    by_cases c1 : lof ≥ 1400
    · rw [if_pos c1]; exact Or.inr (Or.inr (Or.inr rfl))
    rw [if_neg c1]
    by_cases c2 : lof ≥ 1225
    · rw [if_pos c2]; exact Or.inr (Or.inr (Or.inl rfl))
    rw [if_neg c2]
    by_cases c3 : lof ≥ 1125
    · rw [if_pos c3]; exact Or.inr (Or.inl rfl)
    rw [if_neg c3, if_pos (show lof ≥ 1000 from h1)]
    exact Or.inl rfl

/-- Witness for C8: config data `["4b0"]` decodes to LOF 1200 MHz,
band `"Extended-D"`. -/
theorem frequency_band_closed_witness :
    get_config_info (.ok (.dict (some ["4b0"]))) =
      .ok { frequency_band := some "Extended-D", lof := some 1200 } ∧
    (({ frequency_band := some "Extended-D", lof := some 1200 } :
        ConfigInfo).frequency_band = none ∨
      ({ frequency_band := some "Extended-D", lof := some 1200 } :
        ConfigInfo).frequency_band = some "D-Low" ∨
      ({ frequency_band := some "Extended-D", lof := some 1200 } :
        ConfigInfo).frequency_band = some "Extended-D" ∨
      ({ frequency_band := some "Extended-D", lof := some 1200 } :
        ConfigInfo).frequency_band = some "D-Mid" ∨
      ({ frequency_band := some "Extended-D", lof := some 1200 } :
        ConfigInfo).frequency_band = some "D-High") :=
  ⟨rfl, frequency_band_closed (.ok (.dict (some ["4b0"]))) _ rfl⟩

/-- C10: `get_config_info` never populates `channel_count`; the combination
in `get_status` uses Python `or`, so a (hypothetical) config value `0`
would fall through to the status page; hence the assembled snapshot's
`channel_count` always equals the status-page value. -/
theorem channel_count_only_from_status_page (scr : Scrapers) (host : String)
    (d : DeviceResponses) (r : Except GErr Resp) (ci : ConfigInfo)
    (s : AdapterStatus) (sp : StatusPage) (b : Option Int) :
    (get_config_info r = .ok ci → ci.channel_count = none) ∧
    pyOrOptInt (some 0) b = b ∧
    (get_status_page scr d.statusPage = .ok sp →
      get_status scr host d = .ok s → s.channel_count = sp.channel_count) := by
  refine ⟨fun h => ?_, by simp [pyOrOptInt], fun hsp hs => ?_⟩
  · rcases get_config_info_shape r ci h with rfl | ⟨lof, _, _, rfl⟩ <;> rfl
  · rcases (get_status_ok_iff scr host d s).1 hs with
      ⟨mac_address, local_info, packets, peers, phy_rates, privacy_info,
        config_info, fmr_info, status_page, _, _, _, _, _, _, h7, _, h9, rfl⟩
    have hsp' : sp = status_page := by
      rw [hsp] at h9; injection h9
    have hcc : config_info.channel_count = none := by
      rcases get_config_info_shape d.config config_info h7 with
        rfl | ⟨lof, _, _, rfl⟩ <;> rfl
    dsimp only [assembleStatus]
    rw [hcc, hsp']
    rfl

/-- Witness for C10 on the sample responses: config `["4b0"]` yields no
channel count and the assembled snapshot's channel count is the (empty)
status-page value. -/
theorem channel_count_only_from_status_page_witness :
    ∃ s, get_status noopScrapers "192.168.1.1" sampleResponses = .ok s ∧
      s.channel_count = none := by
  cases hs : get_status noopScrapers "192.168.1.1" sampleResponses with
  | error e =>
      have hOk : (get_status noopScrapers "192.168.1.1"
        sampleResponses).isOk = true := rfl
      rw [hs] at hOk
      exact Bool.noConfusion hOk
  | ok s =>
      refine ⟨s, rfl, ?_⟩
      have h := (channel_count_only_from_status_page noopScrapers
        "192.168.1.1" sampleResponses sampleResponses.config
        { } s { } none).2.2 rfl hs
      exact h

/-- C1 counterexample: with local-info data whose offset-5 hex value parses
to `2` (nonzero), the assembled snapshot reports `link_status = false` —
the code compares the value to `1`, it does not test for nonzero. -/
theorem link_status_nonzero_cex :
    parse_hex_value ((localData "2").getD 5 "") = 2 ∧
    (get_status noopScrapers "192.168.1.1" sampleResponses).map
      AdapterStatus.link_status = .ok false := by
  exact ⟨by decide, rfl⟩

/-- C1 amended: `link_status` in the assembled snapshot is true iff the
parsed hex value at offset 5 of the local-info data equals 1 (with the
value defaulting to 0 when offset 5 is missing). -/
theorem link_status_iff_eq_one (scr : Scrapers) (host : String)
    (d : DeviceResponses) (data : List String) (s : AdapterStatus)
    (hld : d.localInfo = .ok (.dict (some data)))
    (hs : get_status scr host d = .ok s) :
    s.link_status = true ↔
      (if data.length > 5 then parse_hex_value (data.getD 5 "") else 0) = 1 := by
  rcases (get_status_ok_iff scr host d s).1 hs with
    ⟨mac_address, local_info, packets, peers, phy_rates, privacy_info,
      config_info, fmr_info, status_page, _, h2, _, _, _, _, _, _, _, rfl⟩
  rw [hld] at h2
  simp only [get_local_info] at h2
  injection h2 with h2
  show (local_info.link_status == 1) = true ↔ _
  rw [← h2]
  simp [beq_iff_eq]

/-- Witness for C1 (amended) with offset-5 value `"1"`: link reported up. -/
theorem link_status_iff_eq_one_witness :
    ∃ s, get_status noopScrapers "192.168.1.1"
        { sampleResponses with localInfo := .ok (.dict (some (localData "1"))) }
        = .ok s ∧ s.link_status = true := by
  cases hs : get_status noopScrapers "192.168.1.1"
      { sampleResponses with
        localInfo := .ok (.dict (some (localData "1"))) } with
  | error e =>
      have hOk : (get_status noopScrapers "192.168.1.1"
        { sampleResponses with
          localInfo := .ok (.dict (some (localData "1"))) }).isOk = true := rfl
      rw [hs] at hOk
      exact Bool.noConfusion hOk
  | ok s =>
      refine ⟨s, rfl, ?_⟩
      exact (link_status_iff_eq_one noopScrapers "192.168.1.1" _
        (localData "1") s rfl hs).2 (by decide)

/-- C7 counterexample: `to_dict` does not map the primitive `link_status`
field to an entry equal to the field's value — a snapshot with
`link_status = true` serializes it as the string `"up"`, not the boolean. -/
theorem to_dict_roundtrip_cex :
    sampleStatus.link_status = true ∧
    sampleStatus.to_dict.lookup "link_status" = some (.str "up") ∧
    PyValue.str "up" ≠ PyValue.bool true :=
  ⟨rfl, rfl, fun h => PyValue.noConfusion h⟩

/-- C7 amended: `to_dict` maps every primitive field except `link_status`
to an entry equal to the field's value; `link_status` maps to `"up"` when
true and `"down"` when false; `packets` nests as
`{tx: {ok, bad, dropped}, rx: {ok, bad, dropped}}`, `network_peers` and
`phy_rates` as lists of per-element dicts; `peer_count` equals
`len(network_peers)`. -/
theorem to_dict_entries (s : AdapterStatus) :
    s.to_dict.lookup "mac_address" = some (.str s.mac_address) ∧
    s.to_dict.lookup "ip_address" = some (.str s.ip_address) ∧
    s.to_dict.lookup "moca_version" = some (.str s.moca_version) ∧
    s.to_dict.lookup "link_status" =
      some (.str (if s.link_status then "up" else "down")) ∧
    s.to_dict.lookup "adapter_name" = some (pyOfOptStr s.adapter_name) ∧
    s.to_dict.lookup "firmware_version" =
      some (pyOfOptStr s.firmware_version) ∧
    s.to_dict.lookup "model" = some (pyOfOptStr s.model) ∧
    s.to_dict.lookup "node_id" = some (.int s.node_id) ∧
    s.to_dict.lookup "nc_node_id" = some (pyOfOptInt s.nc_node_id) ∧
    s.to_dict.lookup "network_controller" =
      some (.bool s.network_controller) ∧
    s.to_dict.lookup "frequency_band" = some (pyOfOptStr s.frequency_band) ∧
    s.to_dict.lookup "lof" = some (pyOfOptInt s.lof) ∧
    s.to_dict.lookup "channel_count" = some (pyOfOptInt s.channel_count) ∧
    s.to_dict.lookup "encryption_enabled" =
      some (pyOfOptBool s.encryption_enabled) ∧
    s.to_dict.lookup "packets" =
      some (.dict [("tx", .dict [("ok", .int s.packets.tx.ok),
                                 ("bad", .int s.packets.tx.bad),
                                 ("dropped", .int s.packets.tx.dropped)]),
                   ("rx", .dict [("ok", .int s.packets.rx.ok),
                                 ("bad", .int s.packets.rx.bad),
                                 ("dropped", .int s.packets.rx.dropped)])]) ∧
    s.to_dict.lookup "network_peers" =
      some (.list (s.network_peers.map (fun peer =>
        .dict [("node_id", .int peer.node_id),
               ("mac_address", .str peer.mac_address),
               ("moca_version", .str peer.moca_version),
               ("tx_phy_rate", .int peer.tx_phy_rate),
               ("rx_phy_rate", .int peer.rx_phy_rate)]))) ∧
    s.to_dict.lookup "phy_rates" =
      some (.list (s.phy_rates.map (fun rate =>
        .dict [("source_mac", .str rate.source_mac),
               ("target_mac", .str rate.target_mac),
               ("tx_rate", .int rate.tx_rate),
               ("rx_rate", .int rate.rx_rate)]))) ∧
    s.peer_count = s.network_peers.length :=
  ⟨rfl, rfl, rfl, rfl, rfl, rfl, rfl, rfl, rfl, rfl, rfl, rfl, rfl, rfl,
    rfl, rfl, rfl, rfl⟩

/-- C2 counterexample: a timeout failure of the non-critical peer-table
sub-fetch is NOT caught — it propagates out of `get_status` even though the
MAC lookup, local-info and frame-info fetches all succeed. -/
theorem noncritical_timeout_propagates_cex :
    get_status noopScrapers "192.168.1.1"
      { sampleResponses with nodeInfo := .error .timeout } =
      .error .timeout ∧
    (get_mac_address sampleResponses.mac).isOk = true ∧
    (get_local_info sampleResponses.localInfo).isOk = true ∧
    (get_frame_info sampleResponses.frameInfo).isOk = true :=
  ⟨rfl, rfl, rfl, rfl⟩

/-- A transport result whose failure, if any, is one the non-critical
fetches catch (`GoCoaxConnectionError` or `GoCoaxParseError`). -/
def caughtKindsOnly (r : Except GErr Resp) : Prop :=
  ∀ e, r = .error e → e = .conn ∨ e = .parse

/-- A non-critical fetch built like `get_node_info` always succeeds under
`caughtKindsOnly`, and degrades to `[]` on a caught error. -/
theorem get_node_info_ok_of_caught (local_node_id : Int)
    (r : Except GErr Resp) (h : caughtKindsOnly r) :
    ∃ peers, get_node_info local_node_id r = .ok peers ∧
      (∀ e, r = .error e → peers = []) := by
  cases r with
  | error e =>
      rcases h e rfl with rfl | rfl
      · exact ⟨[], rfl, fun _ _ => rfl⟩
      · exact ⟨[], rfl, fun _ _ => rfl⟩
  | ok resp =>
      cases resp with
      | dict data? =>
          cases data? with
          | some data =>
              exact ⟨decodePeers data local_node_id, rfl,
                fun _ h' => Except.noConfusion h'⟩
          | none => exact ⟨[], rfl, fun _ h' => Except.noConfusion h'⟩
      | text html => exact ⟨[], rfl, fun _ h' => Except.noConfusion h'⟩

/-- Fetch `get_phy_rates` always succeeds under `caughtKindsOnly`, degrading to
`[]` on a caught error. -/
theorem get_phy_rates_ok_of_caught (scr : Scrapers) (r : Except GErr Resp)
    (h : caughtKindsOnly r) :
    ∃ rates, get_phy_rates scr r = .ok rates ∧
      (∀ e, r = .error e → rates = []) := by
  cases r with
  | error e =>
      rcases h e rfl with rfl | rfl
      · exact ⟨[], rfl, fun _ _ => rfl⟩
      · exact ⟨[], rfl, fun _ _ => rfl⟩
  | ok resp =>
      cases resp with
      | dict data? => exact ⟨[], rfl, fun _ h' => Except.noConfusion h'⟩
      | text html =>
          exact ⟨scr.phyParse html, rfl, fun _ h' => Except.noConfusion h'⟩

/-- Fetch `get_privacy_info` always succeeds under `caughtKindsOnly`, degrading
to the all-unset dict on a caught error. -/
theorem get_privacy_info_ok_of_caught (r : Except GErr Resp)
    (h : caughtKindsOnly r) :
    ∃ pi, get_privacy_info r = .ok pi ∧
      (∀ e, r = .error e → pi = {}) := by
  cases r with
  | error e =>
      rcases h e rfl with rfl | rfl
      · exact ⟨{}, rfl, fun _ _ => rfl⟩
      · exact ⟨{}, rfl, fun _ _ => rfl⟩
  | ok resp =>
      cases resp with
      | dict data? =>
          cases data? with
          | some data =>
              by_cases hl : data.length ≥ 1
              · exact ⟨_, by rw [get_privacy_info, if_pos hl],
                  fun _ h' => Except.noConfusion h'⟩
              · exact ⟨{}, by rw [get_privacy_info, if_neg hl],
                  fun _ h' => Except.noConfusion h'⟩
          | none => exact ⟨{}, rfl, fun _ h' => Except.noConfusion h'⟩
      | text html => exact ⟨{}, rfl, fun _ h' => Except.noConfusion h'⟩

/-- Fetch `get_config_info` always succeeds under `caughtKindsOnly`, degrading to
the all-unset dict on a caught error. -/
theorem get_config_info_ok_of_caught (r : Except GErr Resp)
    (h : caughtKindsOnly r) :
    ∃ ci, get_config_info r = .ok ci ∧
      (∀ e, r = .error e → ci = {}) := by
  cases r with
  | error e =>
      rcases h e rfl with rfl | rfl
      · exact ⟨{}, rfl, fun _ _ => rfl⟩
      · exact ⟨{}, rfl, fun _ _ => rfl⟩
  | ok resp =>
      cases resp with
      | dict data? =>
          cases data? with
          | some data =>
              by_cases hl : data.length ≥ 1
              · by_cases hr : 1000 ≤ parse_hex_value (data.getD 0 "") ∧
                  parse_hex_value (data.getD 0 "") ≤ 1700
                · exact ⟨_, by rw [get_config_info, if_pos hl, if_pos hr],
                    fun _ h' => Except.noConfusion h'⟩
                · exact ⟨{}, by rw [get_config_info, if_pos hl, if_neg hr],
                    fun _ h' => Except.noConfusion h'⟩
              · exact ⟨{}, by rw [get_config_info, if_neg hl],
                  fun _ h' => Except.noConfusion h'⟩
          | none => exact ⟨{}, rfl, fun _ h' => Except.noConfusion h'⟩
      | text html => exact ⟨{}, rfl, fun _ h' => Except.noConfusion h'⟩

/-- Fetch `get_fmr_info` always succeeds under `caughtKindsOnly` (its result is
the all-`None` stub in every case). -/
theorem get_fmr_info_ok_of_caught (r : Except GErr Resp)
    (h : caughtKindsOnly r) : get_fmr_info r = .ok {} := by
  cases r with
  | error e => rcases h e rfl with rfl | rfl <;> rfl
  | ok resp => rfl

/-- Fetch `get_status_page` always succeeds under `caughtKindsOnly`, degrading
to the all-unset dict on a caught error. -/
theorem get_status_page_ok_of_caught (scr : Scrapers)
    (r : Except GErr Resp) (h : caughtKindsOnly r) :
    ∃ sp, get_status_page scr r = .ok sp ∧
      (∀ e, r = .error e → sp = {}) := by
  cases r with
  | error e =>
      rcases h e rfl with rfl | rfl
      · exact ⟨{}, rfl, fun _ _ => rfl⟩
      · exact ⟨{}, rfl, fun _ _ => rfl⟩
  | ok resp =>
      cases resp with
      | dict data? => exact ⟨{}, rfl, fun _ h' => Except.noConfusion h'⟩
      | text html => exact ⟨_, rfl, fun _ h' => Except.noConfusion h'⟩

/-- C2 amended: when the three critical fetches (MAC lookup, local info,
frame info) succeed and every non-critical sub-fetch failure is of a kind
the code catches (`GoCoaxConnectionError` or `GoCoaxParseError` — NOT
timeout or auth, which propagate from any sub-fetch), `get_status`
succeeds, and each failed non-critical sub-fetch degrades to empty/unset
values in the snapshot. -/
theorem get_status_degrades_caught_noncritical (scr : Scrapers)
    (host : String) (d : DeviceResponses) (mac_address : String)
    (local_info : LocalInfo) (packets : EthernetPackets)
    (hmac : get_mac_address d.mac = .ok mac_address)
    (hli : get_local_info d.localInfo = .ok local_info)
    (hfi : get_frame_info d.frameInfo = .ok packets)
    (hni : caughtKindsOnly d.nodeInfo)
    (hpr : caughtKindsOnly d.phyRates)
    (hpv : caughtKindsOnly d.privacy)
    (hcf : caughtKindsOnly d.config)
    (hfm : caughtKindsOnly d.fmr)
    (hsp : caughtKindsOnly d.statusPage) :
    ∃ s, get_status scr host d = .ok s ∧
      (∀ e, d.nodeInfo = .error e → s.network_peers = []) ∧
      (∀ e, d.phyRates = .error e → s.phy_rates = []) ∧
      (∀ e, d.privacy = .error e → s.encryption_enabled = none) ∧
      (∀ e, d.config = .error e →
        s.frequency_band = none ∧ s.lof = none) ∧
      (∀ e, d.statusPage = .error e →
        s.firmware_version = none ∧ s.model = none) := by
  obtain ⟨peers, hni1, hni2⟩ :=
    get_node_info_ok_of_caught local_info.node_id d.nodeInfo hni
  obtain ⟨rates, hpr1, hpr2⟩ := get_phy_rates_ok_of_caught scr d.phyRates hpr
  obtain ⟨pi, hpv1, hpv2⟩ := get_privacy_info_ok_of_caught d.privacy hpv
  obtain ⟨ci, hcf1, hcf2⟩ := get_config_info_ok_of_caught d.config hcf
  have hfm1 := get_fmr_info_ok_of_caught d.fmr hfm
  obtain ⟨sp, hsp1, hsp2⟩ := get_status_page_ok_of_caught scr d.statusPage hsp
  refine ⟨assembleStatus host mac_address local_info packets peers rates pi
    ci {} sp, ?_, ?_, ?_, ?_, ?_, ?_⟩
  · exact (get_status_ok_iff scr host d _).2
      ⟨mac_address, local_info, packets, peers, rates, pi, ci, {}, sp,
        hmac, hli, hfi, hni1, hpr1, hpv1, hcf1, hfm1, hsp1, rfl⟩
  · intro e he
    dsimp only [assembleStatus]
    exact hni2 e he
  · intro e he
    dsimp only [assembleStatus]
    rw [hpr2 e he]
    rfl
  · intro e he
    dsimp only [assembleStatus]
    rw [hpv2 e he]
  · intro e he
    dsimp only [assembleStatus]
    rw [hcf2 e he]
    exact ⟨rfl, rfl⟩
  · intro e he
    dsimp only [assembleStatus]
    rw [hsp2 e he]
    exact ⟨rfl, rfl⟩

/-- Witness for C2 (amended): with connection-error peers, parse-error
config, and all critical fetches succeeding, `get_status` succeeds with an
empty peer list and unset band. -/
theorem get_status_degrades_caught_noncritical_witness :
    ∃ s, get_status noopScrapers "192.168.1.1"
        { sampleResponses with nodeInfo := .error .conn,
                               config := .error .parse } = .ok s ∧
      s.network_peers = [] ∧ s.frequency_band = none := by
  obtain ⟨s, h1, h2, _, _, h5, _⟩ :=
    get_status_degrades_caught_noncritical noopScrapers "192.168.1.1"
      { sampleResponses with nodeInfo := .error .conn,
                             config := .error .parse }
      "a4:81:7a:49:e3:dd"
      { link_status := 2, moca_version := 37, node_id := 1, nc_node_id := 1,
        raw_data := localData "2" }
      { } rfl rfl rfl
      (fun e he => by injection he with he; exact Or.inl he.symm)
      (fun e he => Except.noConfusion he)
      (fun e he => Except.noConfusion he)
      (fun e he => by injection he with he; exact Or.inr he.symm)
      (fun e he => Except.noConfusion he)
      (fun e he => Except.noConfusion he)
  exact ⟨s, h1, h2 .conn rfl, (h5 .parse rfl).1⟩

/-! ## C4: spec-side formulation of the peer-table decode -/

/-- Record `i` of the peer table as the spec describes it: the fixed-width
chunk of 16 hex values starting at offset `i * 16`. -/
def peerRecord (data : List String) (i : Nat) : List String :=
  (data.drop (i * 16)).take 16

/-- Spec-side decode of one record: `node_id` from offset 0, the MAC from
offsets 1–2, the MoCA version from offset 3. -/
def peerRecordDecode (rec : List String) : NetworkPeer :=
  { node_id := parse_hex_value (rec.getD 0 ""),
    mac_address := hex_to_mac (parse_hex_value (rec.getD 1 ""))
      (parse_hex_value (rec.getD 2 "")),
    moca_version := parse_moca_version (parse_hex_value (rec.getD 3 "")) }

/-- Spec-side exclusion: a record is skipped iff its node id equals the
supplied local node id, its node id equals 0, or its decoded MAC is
all-zero. -/
def peerRecordExcluded (local_node_id : Int) (rec : List String) : Bool :=
  ((peerRecordDecode rec).node_id == local_node_id) ||
  ((peerRecordDecode rec).node_id == 0) ||
  ((peerRecordDecode rec).mac_address == "00:00:00:00:00:00")

/-- Spec-side peer-table decode: partition into full 16-value records,
decode each, keep exactly the non-excluded ones. -/
def decodePeersSpec (data : List String) (local_node_id : Int) :
    List NetworkPeer :=
  ((List.range (data.length / 16)).map (peerRecord data)).filterMap
    (fun rec =>
      if peerRecordExcluded local_node_id rec then none
      else some (peerRecordDecode rec))

/-- Reading position `k < 16` of record `i` is reading position
`i * 16 + k` of the flat array (both default to `""` out of range). -/
theorem peerRecord_getD (data : List String) (i k : Nat) (hk : k < 16) :
    (peerRecord data i).getD k "" = data.getD (i * 16 + k) "" := by
  unfold peerRecord
  rw [List.getD_eq_getElem?_getD, List.getD_eq_getElem?_getD,
    List.getElem?_take, if_pos hk, List.getElem?_drop]

/-- C4: the peer-table decode partitions the array into fixed-width records
of 16 hex values from offset 0, decodes node id / MAC / MoCA version from
record offsets 0 / 1–2 / 3, excludes exactly the records matching the local
node id, node id 0, or an all-zero MAC, and keeps one decoded `NetworkPeer`
per remaining record. -/
theorem decode_peers_records (data : List String) (local_node_id : Int) :
    decodePeers data local_node_id = decodePeersSpec data local_node_id := by
  unfold decodePeers decodePeersSpec
  rw [List.filterMap_map]
  by_cases hlen : data.length ≥ 16
  · rw [if_pos hlen]
    apply List.filterMap_congr
    intro i _
    show _ =
      (if peerRecordExcluded local_node_id (peerRecord data i) then none
       else some (peerRecordDecode (peerRecord data i)))
    simp only [peerRecordExcluded, peerRecordDecode,
      peerRecord_getD data i 0 (by omega), peerRecord_getD data i 1 (by omega),
      peerRecord_getD data i 2 (by omega), peerRecord_getD data i 3 (by omega),
      Nat.add_zero, Bool.or_eq_true, beq_iff_eq, List.getD_eq_getElem?_getD]
    by_cases h1 : parse_hex_value (data[i * 16]?.getD "") = local_node_id
    · simp [h1]
    by_cases h2 : parse_hex_value (data[i * 16]?.getD "") = 0
    · simp [h1, h2]
    by_cases h3 : hex_to_mac (parse_hex_value (data[i * 16 + 1]?.getD ""))
        (parse_hex_value (data[i * 16 + 2]?.getD "")) = "00:00:00:00:00:00"
    · simp [h1, h2, h3]
    · simp [h1, h2, h3]
  · rw [if_neg hlen, Nat.div_eq_of_lt (by omega)]
    rfl

end GoCoax

-- sanity checks while developing (spec §8 test vectors)
example : GoCoax.parse_hex_value "0x000683cf" = 426959 := by decide
example : GoCoax.parse_hex_value "invalid" = 0 := by decide
example : GoCoax.parse_hex_value "2" = 2 := by decide
example : GoCoax.parse_64bit_value ["0x00000000", "0x000683cf"] 0 = 426959 := by
  decide
example : GoCoax.hex_to_mac 0xA4817A49 0xE3DD0000 = "a4:81:7a:49:e3:dd" := by
  decide
example : GoCoax.parse_moca_version 0x25 = "2.5" := by decide
example : GoCoax.parse_moca_version 0x20 = "2.0" := by decide
example : GoCoax.parse_moca_version 0 = "unknown" := by decide
example : GoCoax.parse_moca_version 0x31 = "3.1" := by decide
